import Mathlib

/-!
Shallow embedding of resolwe/storage/connectors/transfer.py and proofs about
the transfer engine (retry policy, single-object transfer, recursive transfer).

Line references point into src/resolwe/storage/connectors/transfer.py.
-/

namespace ResolweTransfer

/-- Exception classes reachable from transfer.py.
The members of the module-level tuple transfer_exceptions (lines 30-32) are
DataTransferError, requests.ConnectionError and requests.ReadTimeout
(the optional google ServiceUnavailable is absent when the module is not
installed; it behaves exactly like the other transient classes).
OtherError stands for any exception class outside that tuple. -/
inductive PyExc where
  | DataTransferError (msg : String)
  | RequestsConnectionError (msg : String)
  | ReadTimeout (msg : String)
  | OtherError (msg : String)
deriving DecidableEq, Repr

/-- Outcome of a Python call: normal return or a raised exception. -/
inductive PyResult (α : Type) where
  | ok (a : α)
  | exc (e : PyExc)
deriving DecidableEq, Repr

/-- Membership test in the transfer_exceptions tuple (lines 30-32),
as used by the except clause at line 42. -/
def isTransferException : PyExc → Bool
  | .DataTransferError _ => true
  | .RequestsConnectionError _ => true
  | .ReadTimeout _ => true
  | .OtherError _ => false

/-- A result that is a raised exception. -/
def isExcR {α : Type} : PyResult α → Bool
  | .ok _ => false
  | .exc _ => true

/-- A result that is a raised exception belonging to transfer_exceptions. -/
def isTransferExcR {α : Type} : PyResult α → Bool
  | .ok _ => false
  | .exc e => isTransferException e

/-- A result that is a raised DataTransferError. -/
def isDataTransferErrorR {α : Type} : PyResult α → Bool
  | .exc (.DataTransferError _) => true
  | _ => false

/-- ERROR_MAX_RETRIES = 3 (line 29). -/
def ERROR_MAX_RETRIES : Nat := 3

/-- The loop body of retry_on_transfer_error (lines 35-45).
fuel counts remaining iterations of the for loop over range(ERROR_MAX_RETRIES);
made counts calls of the wrapped function so far, so the outcome of successive
calls of wrapped is given by the function attempts (call number ↦ outcome);
last is the current value of the local variable connection_err.
A return from wrapped ends the loop; an exception in transfer_exceptions is
stored in connection_err and the loop continues; any other exception
propagates.  When the loop ends without returning, connection_err is
re-raised (line 45); reading it before any assignment would be a NameError,
modelled as OtherError (unreachable for a positive retry count).
The second component of the value is the number of calls of wrapped made. -/
def retryGo {α : Type} (attempts : Nat → PyResult α) (fuel made : Nat)
    (last : Option PyExc) : PyResult α × Nat :=
  match fuel with
  | 0 =>
    (match last with
     | some e => PyResult.exc e
     | none => PyResult.exc (PyExc.OtherError "NameError: connection_err"), made)
  | fuel' + 1 =>
    match attempts made with
    | .ok a => (.ok a, made + 1)
    | .exc e =>
      if isTransferException e then retryGo attempts fuel' (made + 1) (some e)
      else (.exc e, made + 1)

/-- retry_on_transfer_error (lines 35-45): run the wrapped callable up to
ERROR_MAX_RETRIES times, retrying on exceptions from transfer_exceptions,
and finally re-raise the last such exception. -/
def retry_on_transfer_error {α : Type} (attempts : Nat → PyResult α) :
    PyResult α × Nat :=
  retryGo attempts ERROR_MAX_RETRIES 0 none

/-- State of one storage connector, as visible to transfer.py:
its name, the two ordered hash-algorithm lists (element 0 is the native
algorithm), the optional multipart_chunksize attribute (hasattr at line 151),
and the stored-hash metadata read by get_hash (url, algorithm ↦ value or None). -/
structure ConnectorState where
  name : String
  supported_download_hash : List String
  supported_upload_hash : List String
  multipart_chunksize : Option Nat
  hashes : String → String → Option String

/-- Outcomes of the three concurrently submitted stages (lines 171-179):
for each future, the str() of its exception when it raised, else none.
The futures tuple order is (download_task, hash_task, upload_task). -/
structure PipelineOutcome where
  downloadExc : Option String
  hashExc : Option String
  uploadExc : Option String

/-- Modelled from the spec: StreamHasher lives in hasher.py, which is not among
the provided sources.  Per the spec (section 4.3) it is constructed with a
configurable chunk_size and exposes it as the attribute chunk_size; digest
values are abstracted by the environment below. -/
structure StreamHasher where
  chunk_size : Nat

/-- Everything one call of the undecorated Transfer.transfer body observes:
the two connectors, the stage outcomes of the pipeline, the digests the
hasher would report after the pipeline (algorithm ↦ hexdigest), and the
outcome of to_connector.delete (whose errors lines 182-183 and 195-196
suppress). -/
structure TransferEnv where
  from_conn : ConnectorState
  to_conn : ConnectorState
  pipeline : PipelineOutcome
  hasherDigest : String → String
  deleteResult : PyResult Unit

/-- Operations on connectors performed by the transfer body, in order. -/
inductive Effect where
  | get_hash (url ht : String)
  | get (url : String)
  | push (url : String)
  | delete (url : String)
  | set_hashes (url : String)
deriving DecidableEq, Repr

/-- Effects that change connector-side state. -/
def Effect.isMutating : Effect → Bool
  | .push _ => true
  | .delete _ => true
  | .set_hashes _ => true
  | .get_hash _ _ => false
  | .get _ => false

/-- [e for e in f.exception() ...] at line 184: the stage exception messages
in futures order (download, hash, upload), failing stages only. -/
def stageExcMessages (p : PipelineOutcome) : List String :=
  p.downloadExc.toList ++ p.hashExc.toList ++ p.uploadExc.toList

/-- common_hash at line 157: [e for e in to_hashes if e in from_hashes],
where to_hashes and from_hashes are the supported_download_hash lists
(lines 155-156). -/
def commonHash (env : TransferEnv) : List String :=
  env.to_conn.supported_download_hash.filter
    (fun e => env.from_conn.supported_download_hash.contains e)

/-- download_hash_type at line 146: from_connector.supported_download_hash[0].
An empty list would raise IndexError in the source; headD stands for the
nonempty case, the only one the claims concern. -/
def download_hash_type (env : TransferEnv) : String :=
  env.from_conn.supported_download_hash.headD ""

/-- upload_hash_type at line 147: to_connector.supported_upload_hash[0]. -/
def upload_hash_type (env : TransferEnv) : String :=
  env.to_conn.supported_upload_hash.headD ""

/-- The short-circuit condition of lines 154-169: common_hash is nonempty,
and for hash_type = common_hash[0] the two stored hashes satisfy
from_hash == to_hash and from_hash is not None (line 162). -/
def shortCircuitB (env : TransferEnv) (from_url to_url : String) : Bool :=
  match commonHash env with
  | ht :: _ =>
    (env.from_conn.hashes from_url ht == env.to_conn.hashes to_url ht)
      && (env.from_conn.hashes from_url ht).isSome
  | [] => false

/-- The get_hash calls issued while evaluating the short-circuit check
(lines 160-161); none when common_hash is empty. -/
def checkEffects (env : TransferEnv) (from_url to_url : String) : List Effect :=
  match commonHash env with
  | ht :: _ => [Effect.get_hash from_url ht, Effect.get_hash to_url ht]
  | [] => []

/-- The verification comparison of line 194:
(from_hash, to_hash) == (hasher_from_hash, hasher_to_hash), where
from_hash = from_connector.get_hash(from_url, download_hash_type) (line 188),
to_hash = to_connector.get_hash(to_url, upload_hash_type) (line 189), and the
right-hand pair holds the hasher hexdigests of those algorithms (191-192). -/
def hashesMatchB (env : TransferEnv) (from_url to_url : String) : Bool :=
  (env.from_conn.hashes from_url (download_hash_type env)
      == some (env.hasherDigest (download_hash_type env)))
    && (env.to_conn.hashes to_url (upload_hash_type env)
      == some (env.hasherDigest (upload_hash_type env)))

/-- contextlib.suppress(Exception) around to_connector.delete
(lines 182-183 and 195-196): the outcome is discarded. -/
def suppress (_ : PyResult Unit) : Unit := ()

/-- Result of one call of the undecorated transfer body: return value or
exception, the connector operations performed in order, the StreamHasher
object constructed at line 145, and whether the executor block
(lines 171-179) was entered. -/
structure BodyResult where
  result : PyResult Unit
  effects : List Effect
  hasher : StreamHasher
  ranPipeline : Bool

/-- Lines 149-152: the local variable hasher_chunk_size after the
multipart_chunksize override.  Note that in the source this assignment
happens only AFTER the StreamHasher has already been constructed at
line 145, so the overridden value never reaches the hasher. -/
def hasher_chunk_size_after_override (to_conn : ConnectorState) : Nat :=
  match to_conn.multipart_chunksize with
  | some v => v
  | none => 8 * 1024 * 1024

/-- Lines 171-207 of Transfer.transfer: the executor block and everything
after it.  The three stages run concurrently; from_connector.get and
to_connector.push are invoked either way (lines 172-176), their outcomes
are read from the futures.  If any stage raised, the destination is
best-effort deleted (errors suppressed) and a DataTransferError carrying the
joined stage messages is raised (lines 181-186).  Otherwise the stored
hashes are re-fetched and compared with the hasher digests (lines 188-197);
a mismatch deletes the destination (suppressed) and raises
DataTransferError(); on success set_hashes stores the metadata (line 207). -/
def runPipeline (env : TransferEnv) (from_url to_url : String)
    (hasher : StreamHasher) (checkEffs : List Effect) : BodyResult :=
  let effs := checkEffs ++ [Effect.get from_url, Effect.push to_url]
  let msgs := stageExcMessages env.pipeline
  if msgs.isEmpty then
    let effs := effs ++ [Effect.get_hash from_url (download_hash_type env),
                         Effect.get_hash to_url (upload_hash_type env)]
    if hashesMatchB env from_url to_url then
      { result := .ok (), effects := effs ++ [Effect.set_hashes to_url],
        hasher := hasher, ranPipeline := true }
    else
      let _ := suppress env.deleteResult
      { result := .exc (.DataTransferError ""),
        effects := effs ++ [Effect.delete to_url],
        hasher := hasher, ranPipeline := true }
  else
    let _ := suppress env.deleteResult
    { result := .exc (.DataTransferError (String.intercalate "\n\n" msgs)),
      effects := effs ++ [Effect.delete to_url],
      hasher := hasher, ranPipeline := true }

/-- The body of Transfer.transfer (lines 133-207), one attempt, undecorated.
The StreamHasher is constructed at line 145 with the value the local
hasher_chunk_size has at that point, 8 * 1024 * 1024 from line 143; the
multipart_chunksize override of lines 151-152 only reassigns the local
afterwards (see hasher_chunk_size_after_override).  Then the short-circuit
check of lines 154-169 either returns early or falls through to the
pipeline. -/
def transferBody (env : TransferEnv) (from_url to_url : String) : BodyResult :=
  let hasher : StreamHasher := { chunk_size := 8 * 1024 * 1024 }
  if shortCircuitB env from_url to_url then
    { result := .ok (), effects := checkEffects env from_url to_url,
      hasher := hasher, ranPipeline := false }
  else
    runPipeline env from_url to_url hasher (checkEffects env from_url to_url)

/-- Transfer.transfer as called by users: the body wrapped in
retry_on_transfer_error (line 132).  Each attempt may observe a different
world state, given by envs (attempt number ↦ environment); the second
component counts the attempts made. -/
def transfer_decorated (envs : Nat → TransferEnv) (from_url to_url : String) :
    PyResult Unit × Nat :=
  retry_on_transfer_error (fun made => (transferBody (envs made) from_url to_url).result)

/-- Everything Transfer.transfer_rec observes about the two connectors and
about the single-object transfers it launches: the four hooks (each may
rewrite and return an object list, or raise), get_object_list, and the
outcome of self.transfer(from_url, to_url) for each url pair.  In the
source, before_push and after_get also return values but pre_processing and
post_processing discard them (lines 72-73 and 84-85). -/
structure RecEnv where
  before_get : List String → String → PyResult (List String)
  before_push : List String → String → PyResult (List String)
  after_get : List String → String → PyResult (List String)
  after_push : List String → String → PyResult (List String)
  get_object_list : String → List String
  transferSingle : String → String → PyResult Unit

/-- Transfer.pre_processing (lines 60-74): objects_to_transfer =
from_connector.before_get(objects, url); to_connector.before_push(
objects_to_transfer, url) with its return value discarded; return
objects_to_transfer. -/
def pre_processing (env : RecEnv) (url : String) (objects : List String) :
    PyResult (List String) :=
  match env.before_get objects url with
  | .exc e => .exc e
  | .ok objects_to_transfer =>
    match env.before_push objects_to_transfer url with
    | .exc e => .exc e
    | .ok _ => .ok objects_to_transfer

/-- Transfer.post_processing (lines 76-86): from_connector.after_get(objects,
url) with return value discarded; return to_connector.after_push(objects,
url). -/
def post_processing (env : RecEnv) (url : String) (objects : List String) :
    PyResult (List String) :=
  match env.after_get objects url with
  | .exc e => .exc e
  | .ok _ => env.after_push objects url

/-- entry.endswith("/") at line 116, computed on the character list. -/
def endsWithSlash (s : String) : Bool :=
  s.data.getLast? == some '/'

/-- Path(url) / entry at line 117, for a relative entry. -/
def pathJoin (url entry : String) : String := url ++ "/" ++ entry

/-- The loop of lines 114-117: for each entry of the iterated list that does
not end with a slash, call self.transfer(url / entry, url / entry); an
exception from a transfer aborts the loop and propagates.  The second
component lists the urls actually passed to self.transfer (each entry is
used as both source and destination url), including a final failing one. -/
def transferLoop (env : RecEnv) (url : String) :
    List String → PyResult Unit × List String
  | [] => (.ok (), [])
  | entry :: rest =>
    if endsWithSlash entry then transferLoop env url rest
    else
      match env.transferSingle (pathJoin url entry) (pathJoin url entry) with
      | .ok _ =>
        let r := transferLoop env url rest
        (r.1, pathJoin url entry :: r.2)
      | .exc e => (.exc e, [pathJoin url entry])

/-- Return value and transferred-url list of transfer_rec. -/
structure RecResult where
  result : PyResult (Option (List String))
  transferred : List String

/-- Transfer.transfer_rec (lines 88-130).  objects defaults to
from_connector.get_object_list(url) (lines 101-102).  Any exception in
pre_processing is caught and DataTransferError() raised instead
(lines 105-111); then the loop of lines 114-117 iterates over the ORIGINAL
objects list (not the objects_to_transfer returned by pre_processing); any
exception in post_processing, called with objects_to_transfer, is caught
and DataTransferError() raised instead (lines 120-128).  Line 130 returns
None when after_push handed back the original objects (the source compares
with the identity operator; structural equality stands in for it here),
else the stored list. -/
def transfer_rec (env : RecEnv) (url : String)
    (objectsArg : Option (List String)) : RecResult :=
  let objects := match objectsArg with
    | some o => o
    | none => env.get_object_list url
  match pre_processing env url objects with
  | .exc _ => { result := .exc (.DataTransferError ""), transferred := [] }
  | .ok objects_to_transfer =>
    let loopRes := transferLoop env url objects
    match loopRes.1 with
    | .exc e => { result := .exc e, transferred := loopRes.2 }
    | .ok _ =>
      match post_processing env url objects_to_transfer with
      | .exc _ => { result := .exc (.DataTransferError ""), transferred := loopRes.2 }
      | .ok objects_stored =>
        { result := .ok (if objects_stored == objects then none else some objects_stored),
          transferred := loopRes.2 }

/-! Concrete environments used to evaluate the model on explicit inputs. -/

/-- A connector supporting only md5, with no stored hashes and no
multipart_chunksize. -/
def connPlain : ConnectorState :=
  { name := "src"
    supported_download_hash := ["md5"]
    supported_upload_hash := ["md5"]
    multipart_chunksize := none
    hashes := fun _ _ => none }

/-- A local-like source connector for the chunk-size scenario. -/
def connLocal : ConnectorState :=
  { name := "local"
    supported_download_hash := ["md5"]
    supported_upload_hash := ["md5"]
    multipart_chunksize := none
    hashes := fun _ _ => none }

/-- An S3-like destination connector declaring multipart_chunksize = 5 MiB. -/
def connS3 : ConnectorState :=
  { name := "s3"
    supported_download_hash := ["awss3etag"]
    supported_upload_hash := ["awss3etag"]
    multipart_chunksize := some (5 * 1024 * 1024)
    hashes := fun _ _ => none }

/-- A connector whose stored hash equals "same" everywhere (for the
short-circuit path). -/
def connStored : ConnectorState :=
  { name := "stored"
    supported_download_hash := ["md5"]
    supported_upload_hash := ["md5"]
    multipart_chunksize := none
    hashes := fun _ _ => some "same" }

/-- A source connector whose stored hash is "aaa" everywhere. -/
def connStoredAaa : ConnectorState :=
  { name := "srcA"
    supported_download_hash := ["md5"]
    supported_upload_hash := ["md5"]
    multipart_chunksize := none
    hashes := fun _ _ => some "aaa" }

/-- No stage failed. -/
def pipelineOk : PipelineOutcome :=
  { downloadExc := none, hashExc := none, uploadExc := none }

/-- Transfer to an S3-like connector declaring multipart_chunksize. -/
def envMultipart : TransferEnv :=
  { from_conn := connLocal
    to_conn := connS3
    pipeline := pipelineOk
    hasherDigest := fun _ => "d"
    deleteResult := .ok () }

/-- Every attempt fails in the download stage with a reset connection. -/
def envStageFail : TransferEnv :=
  { from_conn := connPlain
    to_conn := connPlain
    pipeline := { downloadExc := some "connection reset by peer"
                  hashExc := none, uploadExc := none }
    hasherDigest := fun _ => "d"
    deleteResult := .ok () }

/-- The pipeline succeeds but the stored source hash "aaa" differs from the
hasher digest "bbb": the verification of line 194 fails. -/
def envMismatch : TransferEnv :=
  { from_conn := connStoredAaa
    to_conn := connPlain
    pipeline := pipelineOk
    hasherDigest := fun _ => "bbb"
    deleteResult := .ok () }

/-- Both stored hashes present and equal: the short-circuit of lines 154-169
fires. -/
def envShortCircuit : TransferEnv :=
  { from_conn := connStored
    to_conn := connStored
    pipeline := pipelineOk
    hasherDigest := fun _ => "d"
    deleteResult := .ok () }

/-- Every attempt of the decorated transfer, abstracted at the decorator
level, raises requests.ReadTimeout. -/
def allTimeout : Nat → PyResult Unit := fun _ => .exc (.ReadTimeout "read timed out")

/-- Hooks that succeed and keep the list unchanged, except that before_get
rewrites the object list to the single entry "archive.zip". -/
def recEnvRewrite : RecEnv :=
  { before_get := fun _ _ => .ok ["archive.zip"]
    before_push := fun objs _ => .ok objs
    after_get := fun objs _ => .ok objs
    after_push := fun objs _ => .ok objs
    get_object_list := fun _ => []
    transferSingle := fun _ _ => .ok () }

/-- Hooks all succeed except before_get, which raises an exception outside
the transfer taxonomy. -/
def recEnvPreFail : RecEnv :=
  { before_get := fun _ _ => .exc (.OtherError "boom")
    before_push := fun objs _ => .ok objs
    after_get := fun objs _ => .ok objs
    after_push := fun objs _ => .ok objs
    get_object_list := fun _ => []
    transferSingle := fun _ _ => .ok () }

/-! Helper lemmas. -/

/-- A result classified as a transfer exception is a raised exception from
the transfer_exceptions tuple. -/
theorem isTransferExcR_elim {α : Type} {r : PyResult α}
    (h : isTransferExcR r = true) :
    ∃ e, r = .exc e ∧ isTransferException e = true := by
  cases r with
  | ok a => simp [isTransferExcR] at h
  | exc e => exact ⟨e, rfl, h⟩

/-- Unrolling: after three consecutive transfer-class failures the loop of
retry_on_transfer_error ends and re-raises the third exception, having made
exactly three calls. -/
theorem retry_three_transient {α : Type} (attempts : Nat → PyResult α)
    (h : ∀ i, i < 3 → isTransferExcR (attempts i) = true) :
    retry_on_transfer_error attempts = (attempts 2, 3) := by
  obtain ⟨e0, he0, ht0⟩ := isTransferExcR_elim (h 0 (by omega))
  obtain ⟨e1, he1, ht1⟩ := isTransferExcR_elim (h 1 (by omega))
  obtain ⟨e2, he2, ht2⟩ := isTransferExcR_elim (h 2 (by omega))
  simp [retry_on_transfer_error, ERROR_MAX_RETRIES, retryGo,
        he0, he1, he2, ht0, ht1, ht2]

/-- The executor block always marks the pipeline as run. -/
theorem runPipeline_ranPipeline (env : TransferEnv) (from_url to_url : String)
    (hasher : StreamHasher) (checkEffs : List Effect) :
    (runPipeline env from_url to_url hasher checkEffs).ranPipeline = true := by
  unfold runPipeline
  by_cases h1 : (stageExcMessages env.pipeline).isEmpty
  · by_cases h2 : hashesMatchB env from_url to_url <;> simp [h1, h2]
  · simp [h1]

/-- The short-circuit get_hash reads mutate nothing. -/
theorem checkEffects_not_mutating (env : TransferEnv) (from_url to_url : String) :
    ∀ e ∈ checkEffects env from_url to_url, Effect.isMutating e = false := by
  unfold checkEffects
  cases commonHash env <;> simp [Effect.isMutating]

/-! Claim theorems. -/

/-- C1 (code bug): the claim says that when the upload connector declares
multipart_chunksize, the StreamHasher used by Transfer.transfer computes its
digests with that chunk size.  The source constructs the StreamHasher at
line 145, BEFORE the override of lines 151-152 reassigns the local variable,
so the hasher always carries the 8 MiB default: here the destination
declares multipart_chunksize = 5242880 yet the constructed hasher's
chunk_size is 8388608. -/
theorem hasher_ignores_multipart_chunksize :
    envMultipart.to_conn.multipart_chunksize = some 5242880
      ∧ (transferBody envMultipart "f" "t").hasher.chunk_size = 8388608
      ∧ hasher_chunk_size_after_override envMultipart.to_conn = 5242880
      ∧ ((8388608 : Nat) == 5242880) = false := by decide

/-- C2 (counterexample): with every attempt failing in the download stage
with a transient error, the decorated transfer surfaces the failure after
exactly 3 calls of the wrapped body, not after a 4th attempt as claimed. -/
theorem retry_surfaces_after_three_attempts :
    isExcR (transfer_decorated (fun _ => envStageFail) "a" "b").1 = true
      ∧ (transfer_decorated (fun _ => envStageFail) "a" "b").2 = 3
      ∧ (((transfer_decorated (fun _ => envStageFail) "a" "b").2 == 4) = false) := by
  decide

/-- C2 (amended): a transient failure is retried, but only up to 3 attempts
in total: when the first three attempts all raise transfer-class exceptions,
the decorated transfer makes exactly 3 calls and surfaces the third
attempt's outcome. -/
theorem transfer_retries_three_attempts (envs : Nat → TransferEnv)
    (from_url to_url : String)
    (h : ∀ i, i < 3 →
      isTransferExcR (transferBody (envs i) from_url to_url).result = true) :
    transfer_decorated envs from_url to_url
      = ((transferBody (envs 2) from_url to_url).result, 3) :=
  retry_three_transient _ h

/-- C2 (witness): the amended theorem applied to the concrete world where
every attempt fails with a reset connection. -/
theorem transfer_retries_three_attempts_witness :
    transfer_decorated (fun _ => envStageFail) "a" "b"
      = ((transferBody envStageFail "a" "b").result, 3) :=
  transfer_retries_three_attempts (fun _ => envStageFail) "a" "b" (by decide)

/-- C3 (counterexample): when every attempt raises requests.ReadTimeout, the
exception finally surfaced by retry_on_transfer_error is that ReadTimeout
itself (line 45 re-raises connection_err), not a DataTransferError. -/
theorem exhausted_retries_raise_read_timeout :
    (retry_on_transfer_error allTimeout).1 = .exc (.ReadTimeout "read timed out")
      ∧ isDataTransferErrorR (retry_on_transfer_error allTimeout).1 = false
      ∧ isExcR (retry_on_transfer_error allTimeout).1 = true := by decide

/-- C3 (amended): after retries are exhausted, the exception raised to the
caller is exactly the exception the last attempt raised, with its concrete
class preserved. -/
theorem exhausted_retries_raise_last_exception (attempts : Nat → PyResult Unit)
    (h : ∀ i, i < 3 → isTransferExcR (attempts i) = true) :
    (retry_on_transfer_error attempts).1 = attempts 2 := by
  rw [retry_three_transient attempts h]

/-- C3 (witness): the amended theorem applied to attempts that always raise
ReadTimeout. -/
theorem exhausted_retries_raise_last_exception_witness :
    (retry_on_transfer_error allTimeout).1 = allTimeout 2 :=
  exhausted_retries_raise_last_exception allTimeout (by decide)

/-- C4 (counterexample): in a world where the pipeline succeeds but the
stored source hash differs from the hasher digest on every attempt, the
verification failure raises DataTransferError, and the decorated transfer
invokes the wrapped body 3 times, not once as the claim states. -/
theorem mismatch_is_retried :
    (transferBody envMismatch "f" "t").result = .exc (.DataTransferError "")
      ∧ (transfer_decorated (fun _ => envMismatch) "f" "t").2 = 3
      ∧ (((transfer_decorated (fun _ => envMismatch) "f" "t").2 == 1) = false) := by
  decide

/-- C5 (code bug): the claim (and the docstrings of pre_processing and
post_processing) say the entries passed to single-object transfer are those
of the list rewritten by the hooks; the loop at line 114 iterates the
ORIGINAL objects list instead.  Here before_get rewrites ["a.txt"] to
["archive.zip"], yet the single entry transferred is base/a.txt. -/
theorem loop_ignores_rewritten_list :
    pre_processing recEnvRewrite "base" ["a.txt"] = .ok ["archive.zip"]
      ∧ (transfer_rec recEnvRewrite "base" (some ["a.txt"])).transferred
        = ["base/a.txt"]
      ∧ ((["base/a.txt"] == ["base/archive.zip"]) = false) := by decide

/-- The delete operation never appears among the short-circuit reads. -/
theorem delete_not_mem_checkEffects (env : TransferEnv) (from_url to_url u : String) :
    Effect.delete u ∉ checkEffects env from_url to_url := by
  intro hmem
  have hflat := checkEffects_not_mutating env from_url to_url _ hmem
  simp [Effect.isMutating] at hflat

/-- Replacing the outcome of to_connector.delete does not change the
short-circuit condition. -/
theorem shortCircuitB_deleteResult (env : TransferEnv) (d : PyResult Unit)
    (from_url to_url : String) :
    shortCircuitB { env with deleteResult := d } from_url to_url
      = shortCircuitB env from_url to_url := rfl

/-- C4 (amended): a post-transfer hash mismatch raises DataTransferError,
which belongs to the transfer_exceptions tuple, so the retry wrapper treats
it like any transient error: the wrapped transfer is re-invoked, and when
the mismatch persists the failure surfaces only after 3 attempts. -/
theorem mismatch_raises_retryable_error (env : TransferEnv)
    (from_url to_url : String)
    (h1 : shortCircuitB env from_url to_url = false)
    (h2 : stageExcMessages env.pipeline = [])
    (h3 : hashesMatchB env from_url to_url = false) :
    (transferBody env from_url to_url).result = .exc (.DataTransferError "")
      ∧ isTransferException (.DataTransferError "") = true
      ∧ transfer_decorated (fun _ => env) from_url to_url
        = (.exc (.DataTransferError ""), 3) := by
  have hb : (transferBody env from_url to_url).result
      = .exc (.DataTransferError "") := by
    simp [transferBody, h1, runPipeline, h2, h3]
  refine ⟨hb, rfl, ?_⟩
  have hr := retry_three_transient
    (fun made => (transferBody ((fun _ => env) made) from_url to_url).result)
    (fun i _ => by simp [hb, isTransferExcR, isTransferException])
  simpa [transfer_decorated, hb] using hr

/-- C4 (witness): the amended theorem at the concrete mismatching world. -/
theorem mismatch_raises_retryable_error_witness :
    (transferBody envMismatch "f" "t").result = .exc (.DataTransferError "")
      ∧ isTransferException (.DataTransferError "") = true
      ∧ transfer_decorated (fun _ => envMismatch) "f" "t"
        = (.exc (.DataTransferError ""), 3) :=
  mismatch_raises_retryable_error envMismatch "f" "t"
    (by decide) (by decide) (by decide)

/-- C6: after a pipeline run with no stage failure, the body re-fetches the
stored source hash for the source's native algorithm and the stored
destination hash for the destination's native algorithm; it returns
successfully iff both equal the hasher's digests for those algorithms
(hashesMatchB spells out exactly that comparison), and on mismatch the
destination is deleted and DataTransferError raised. -/
theorem verification_checks_native_hashes (env : TransferEnv)
    (from_url to_url : String)
    (h1 : shortCircuitB env from_url to_url = false)
    (h2 : stageExcMessages env.pipeline = []) :
    ((transferBody env from_url to_url).result = .ok ()
        ↔ hashesMatchB env from_url to_url = true)
      ∧ ((transferBody env from_url to_url).result = .exc (.DataTransferError "")
        ↔ hashesMatchB env from_url to_url = false)
      ∧ (Effect.delete to_url ∈ (transferBody env from_url to_url).effects
        ↔ hashesMatchB env from_url to_url = false)
      ∧ Effect.get_hash from_url (download_hash_type env)
          ∈ (transferBody env from_url to_url).effects
      ∧ Effect.get_hash to_url (upload_hash_type env)
          ∈ (transferBody env from_url to_url).effects := by
  cases hm : hashesMatchB env from_url to_url with
  | true =>
    simp [transferBody, h1, runPipeline, h2, hm,
          delete_not_mem_checkEffects env from_url to_url to_url]
  | false =>
    simp [transferBody, h1, runPipeline, h2, hm]

/-- C6 (witness): the verification theorem at the concrete mismatching
world. -/
theorem verification_checks_native_hashes_witness :
    (((transferBody envMismatch "f" "t").result = .ok ()
        ↔ hashesMatchB envMismatch "f" "t" = true)
      ∧ ((transferBody envMismatch "f" "t").result = .exc (.DataTransferError "")
        ↔ hashesMatchB envMismatch "f" "t" = false)
      ∧ (Effect.delete "t" ∈ (transferBody envMismatch "f" "t").effects
        ↔ hashesMatchB envMismatch "f" "t" = false)
      ∧ Effect.get_hash "f" (download_hash_type envMismatch)
          ∈ (transferBody envMismatch "f" "t").effects
      ∧ Effect.get_hash "t" (upload_hash_type envMismatch)
          ∈ (transferBody envMismatch "f" "t").effects) :=
  verification_checks_native_hashes envMismatch "f" "t" (by decide) (by decide)

/-- C7: if any pipeline stage raised, the destination object is deleted
best-effort (the outcome of the delete, even a failure, does not change the
result) and a single DataTransferError carrying the joined stage messages is
raised. -/
theorem stage_failure_deletes_and_aggregates (env : TransferEnv)
    (from_url to_url : String)
    (h1 : shortCircuitB env from_url to_url = false)
    (h2 : (stageExcMessages env.pipeline).isEmpty = false) :
    (transferBody env from_url to_url).result
        = .exc (.DataTransferError
            (String.intercalate "\n\n" (stageExcMessages env.pipeline)))
      ∧ Effect.delete to_url ∈ (transferBody env from_url to_url).effects
      ∧ (transferBody
            { env with deleteResult := .exc (.OtherError "delete failed") }
            from_url to_url).result
        = (transferBody env from_url to_url).result := by
  refine ⟨?_, ?_, ?_⟩
  · simp [transferBody, h1, runPipeline, h2]
  · simp [transferBody, h1, runPipeline, h2]
  · simp [transferBody, h1, runPipeline, h2, shortCircuitB_deleteResult]

/-- C7 (witness): the aggregation theorem at the concrete world whose
download stage fails. -/
theorem stage_failure_deletes_and_aggregates_witness :
    ((transferBody envStageFail "a" "b").result
        = .exc (.DataTransferError
            (String.intercalate "\n\n" (stageExcMessages envStageFail.pipeline)))
      ∧ Effect.delete "b" ∈ (transferBody envStageFail "a" "b").effects
      ∧ (transferBody
            { envStageFail with deleteResult := .exc (.OtherError "delete failed") }
            "a" "b").result
        = (transferBody envStageFail "a" "b").result) :=
  stage_failure_deletes_and_aggregates envStageFail "a" "b" (by decide) (by decide)

/-- C8: the body returns success without entering the executor block exactly
when the connectors share a hash algorithm and, for the first shared
algorithm (the one the source picks at line 159), the stored hashes fetched
from both sides are present and equal. -/
theorem short_circuit_success_iff (env : TransferEnv) (from_url to_url : String) :
    ((transferBody env from_url to_url).result = .ok ()
        ∧ (transferBody env from_url to_url).ranPipeline = false)
      ↔ ∃ ht v, (commonHash env).head? = some ht
          ∧ env.from_conn.hashes from_url ht = some v
          ∧ env.to_conn.hashes to_url ht = some v := by
  cases hsc : shortCircuitB env from_url to_url with
  | true =>
    constructor
    · intro _
      unfold shortCircuitB at hsc
      cases hch : commonHash env with
      | nil => rw [hch] at hsc; simp at hsc
      | cons ht rest =>
        rw [hch] at hsc
        simp only [Bool.and_eq_true, beq_iff_eq, Option.isSome_iff_exists] at hsc
        obtain ⟨heq, v, hv⟩ := hsc
        exact ⟨ht, v, by simp [hch], hv, by rw [← heq, hv]⟩
    · intro _
      constructor <;> simp [transferBody, hsc]
  | false =>
    constructor
    · intro hboth
      exfalso
      have hrun : transferBody env from_url to_url
          = runPipeline env from_url to_url { chunk_size := 8 * 1024 * 1024 }
              (checkEffects env from_url to_url) := by
        simp [transferBody, hsc]
      have hpip := runPipeline_ranPipeline env from_url to_url
        { chunk_size := 8 * 1024 * 1024 } (checkEffects env from_url to_url)
      rw [hrun, hpip] at hboth
      exact absurd hboth.2 (by simp)
    · rintro ⟨ht, v, hh, hf, ht2⟩
      exfalso
      unfold shortCircuitB at hsc
      cases hch : commonHash env with
      | nil => rw [hch] at hh; simp at hh
      | cons a rest =>
        rw [hch] at hh hsc
        simp only [List.head?_cons, Option.some.injEq] at hh
        subst hh
        dsimp only at hsc
        rw [hf, ht2] at hsc
        simp at hsc

/-- C9: an exception in a pre-processing or post-processing hook is caught
by transfer_rec and re-raised as DataTransferError, never as the original
exception. -/
theorem hook_errors_become_data_transfer_error (env : RecEnv) (url : String)
    (objects : List String)
    (h : (∃ e, pre_processing env url objects = .exc e)
        ∨ ((transferLoop env url objects).1 = .ok ()
            ∧ ∃ objs e, pre_processing env url objects = .ok objs
                ∧ post_processing env url objs = .exc e)) :
    (transfer_rec env url (some objects)).result = .exc (.DataTransferError "") := by
  rcases h with ⟨e, he⟩ | ⟨hl, objs, e, hpre, hpost⟩
  · simp [transfer_rec, he]
  · simp [transfer_rec, hpre, hl, hpost]

/-- C9 (witness): before_get raising OtherError "boom" surfaces from
transfer_rec as a plain DataTransferError. -/
theorem hook_errors_become_data_transfer_error_witness :
    (transfer_rec recEnvPreFail "base" (some ["a.txt"])).result
      = .exc (.DataTransferError "") :=
  hook_errors_become_data_transfer_error recEnvPreFail "base" ["a.txt"]
    (Or.inl ⟨.OtherError "boom", by decide⟩)

/-- C10: on the short-circuit path the body returns success and performs
only get_hash reads: no push, no delete, no set_hashes. -/
theorem short_circuit_has_no_mutation (env : TransferEnv)
    (from_url to_url : String)
    (h : shortCircuitB env from_url to_url = true) :
    (transferBody env from_url to_url).result = .ok ()
      ∧ (transferBody env from_url to_url).effects.all
          (fun e => !(Effect.isMutating e)) = true := by
  constructor
  · simp [transferBody, h]
  · have hred : (transferBody env from_url to_url).effects
        = checkEffects env from_url to_url := by
      simp [transferBody, h]
    rw [hred, List.all_eq_true]
    intro e he
    simp [checkEffects_not_mutating env from_url to_url e he]

/-- C10 (witness): the frame theorem at the concrete world where both stored
hashes are present and equal. -/
theorem short_circuit_has_no_mutation_witness :
    (transferBody envShortCircuit "f" "t").result = .ok ()
      ∧ (transferBody envShortCircuit "f" "t").effects.all
          (fun e => !(Effect.isMutating e)) = true :=
  short_circuit_has_no_mutation envShortCircuit "f" "t" (by decide)

end ResolweTransfer
